import Mathlib

/-!
Verification development for the session record/store/replay/codegen engine
of the concurrent-browser-mcp repository (source: src/unnamed/part_005,
class SessionRecorder).  JavaScript objects flowing through the recorder are
shallowly embedded: untyped parameter bags become association lists of JSON
values, result payloads become a structure over the fields the code inspects,
and the recorder state becomes an explicit structure threaded through the
operations.
-/

/-- JSON-representable JavaScript value, used for untyped parameter bags,
metadata and page-data payloads, and as the target of the persistence codec
(JSON.stringify / JSON.parse round through exactly these values). -/
inductive JVal where
  | null
  | bool (b : Bool)
  | num (n : Int)
  | str (s : String)
  | arr (elems : List JVal)
  | obj (fields : List (String × JVal))

/-- JavaScript truthiness of a string: only the empty string is falsy. -/
def jsTruthyStr (s : String) : Bool := !(s == "")

/-- JavaScript truthiness of a JSON value (objects and arrays are always
truthy, null is falsy, numbers are falsy exactly at 0, strings exactly when
empty). -/
def jsTruthy : JVal → Bool
  | .null => false
  | .bool b => b
  | .num n => !(n == 0)
  | .str s => jsTruthyStr s
  | .arr _ => true
  | .obj _ => true

/-- JavaScript truthiness of a possibly-absent string (undefined is falsy). -/
def jsTruthyOptStr : Option String → Bool
  | none => false
  | some s => jsTruthyStr s

/-- Sensitive-parameter denylist, from sanitizeParameters (part_005 line 344). -/
def sensitiveFields : List String := ["password", "token", "apiKey", "secret"]

/-- Transform applied by sanitizeParameters to one own key of the sanitized
copy: a denylisted key with a truthy value is overwritten with the redaction
marker (lines 345-349); afterwards a truthy screenshot key is overwritten
with the screenshot placeholder (lines 352-354).  The denylist does not
contain the key screenshot, so folding both passes into one per-entry
transform is faithful. -/
def sanitizeEntry (k : String) (v : JVal) : JVal :=
  if sensitiveFields.contains k && jsTruthy v then .str "***REDACTED***"
  else if k == "screenshot" && jsTruthy v then .str "[SCREENSHOT_DATA]"
  else v

/-- SessionRecorder.sanitizeParameters (part_005 lines 340-357).  The source
takes a shallow copy of the bag and overwrites only top-level own keys; the
copy is modelled by rebuilding the association list entry by entry. -/
def sanitizeParameters (params : List (String × JVal)) : List (String × JVal) :=
  params.map (fun p => (p.1, sanitizeEntry p.1 p.2))

/-- Truncation marker appended by sanitizeResult (part_005 line 393). -/
def truncMarker : String := "...[TRUNCATED]"

/-- JavaScript String.prototype.substring(0, n), by code units; the recorded
payloads are modelled over their character sequence. -/
def jsSubstringTo (s : String) (n : Nat) : String := String.mk (s.data.take n)

/-- Data part of a recorded tool result, with the fields the recorder reads
(compareResults reads url, title, content; sanitizeResult reads html,
markdown, content, screenshot).  Absent fields are undefined. -/
structure RData where
  url : Option String := none
  title : Option String := none
  html : Option String := none
  markdown : Option String := none
  content : Option String := none
  screenshot : Option String := none

/-- Field-level truncation performed in place by sanitizeResult on the data
object (part_005 lines 392-406): each of html, markdown, content longer than
1000 characters is cut to 1000 characters and suffixed with the truncation
marker (the length guard also requires the field to be truthy, which a
string longer than 1000 characters always is); a truthy screenshot is
replaced by the screenshot placeholder. -/
def truncRData (d : RData) : RData :=
  { d with
    html :=
      match d.html with
      | some s => if 1000 < s.length then some (jsSubstringTo s 1000 ++ truncMarker) else some s
      | none => none
    markdown :=
      match d.markdown with
      | some s => if 1000 < s.length then some (jsSubstringTo s 1000 ++ truncMarker) else some s
      | none => none
    content :=
      match d.content with
      | some s => if 1000 < s.length then some (jsSubstringTo s 1000 ++ truncMarker) else some s
      | none => none
    screenshot :=
      match d.screenshot with
      | some s => if jsTruthyStr s then some "[SCREENSHOT_DATA]" else some s
      | none => none }

/-- Recorded tool result object, with the fields the recorder reads.  In the
source every result reaching processResult is a non-null object (recordAction
line 140 guards on truthiness of action.result); a possibly-null result is
represented as Option RObj at the call sites that allow it. -/
structure RObj where
  success : Option Bool := none
  data : Option RData := none
  error : Option String := none

/-- SessionRecorder.sanitizeResult (part_005 lines 386-409): a result with no
data object is returned unchanged; otherwise the large-payload fields of the
data object are truncated or replaced. -/
def sanitizeResult (r : RObj) : RObj :=
  match r.data with
  | none => r
  | some d => { r with data := some (truncRData d) }

/-- Fixed set of data-bearing tools whose results are kept verbatim under
full capture (part_005 lines 366-372). -/
def dataCapturingTools : List String :=
  ["browser_get_page_info", "browser_screenshot", "browser_get_markdown",
   "browser_get_element_text", "browser_navigate"]

/-- SessionRecorder.processResult (part_005 lines 362-381): under full
capture a data-bearing tool result is returned unchanged, otherwise the
result is sanitized. -/
def processResult (captureFullPageData : Bool) (tool : String) (r : RObj) : RObj :=
  if captureFullPageData && dataCapturingTools.contains tool then r
  else sanitizeResult r

/-- Value of the caller-supplied result object after sanitizeResult returns.
The source copies only the top level (sanitized = spread of result, line
389) and then assigns into sanitized.data, which is the very object the
caller passed in, so the caller observes the same truncations in place;
therefore the caller view coincides with the sanitized output. -/
def sanitizeResultCallerView (r : RObj) : RObj :=
  match r.data with
  | none => r
  | some d => { r with data := some (truncRData d) }

/-- One contentLength entry of the deep comparator (part_005 lines 721-725). -/
structure ContentLenDiff where
  original : Nat
  replay : Nat
  difference : Nat

/-- Difference entries accumulated by the deep comparator. -/
structure DeepDiffs where
  url : Option (Option String × Option String) := none
  title : Option (Option String × Option String) := none
  contentLength : Option ContentLenDiff := none

/-- Difference payload of a comparison: the shallow branch records the full
outcome pair, the deep branch records the accumulated entries. -/
inductive DiffPayload where
  | shallow (original replay : Option RObj)
  | deep (d : DeepDiffs)

/-- Result of SessionRecorder.compareResults: the match flag and the
differences object (absent when no entry was recorded). -/
structure ComparisonResult where
  matchFlag : Bool
  differences : Option DiffPayload

/-- Optional-chain original?.success. -/
def osuccess (o : Option RObj) : Option Bool := o.bind RObj.success

/-- Optional-chain original?.data?.url. -/
def ourl (o : Option RObj) : Option String := (o.bind RObj.data).bind RData.url

/-- Optional-chain original?.data?.title. -/
def otitle (o : Option RObj) : Option String := (o.bind RObj.data).bind RData.title

/-- Optional-chain original?.data?.content. -/
def ocontent (o : Option RObj) : Option String := (o.bind RObj.data).bind RData.content

/-- SessionRecorder.compareResults (part_005 lines 686-733).  Without content
comparison, two outcomes match exactly when their success flags agree (strict
equality on possibly-undefined values).  With content comparison: a url
difference is recorded and sets the significance flag; a title difference is
recorded without touching the flag (source comment: title differences might
be acceptable); when both contents are truthy and their length difference
exceeds 10 percent of the original length a contentLength entry is recorded,
and the source does not touch the significance flag there either.  The float
comparison lengthDiff greater than originalLength times 0.1 is modelled as
10 times lengthDiff greater than originalLength; for natural-number lengths
these agree with the double computation, since the rounded double threshold
lies in the half-open unit interval starting at the exact rational.  The
returned match flag is the negation of the significance flag, and the
differences object is returned only when at least one entry exists. -/
def compareResults (original replay : Option RObj) (_tool : String)
    (compareContent : Bool) : ComparisonResult :=
  if !compareContent then
    { matchFlag := osuccess original == osuccess replay,
      differences :=
        if osuccess original == osuccess replay then none
        else some (.shallow original replay) }
  else
    let urlDiff : Option (Option String × Option String) :=
      if ourl original == ourl replay then none else some (ourl original, ourl replay)
    let hasSignificantDifferences : Bool := !(ourl original == ourl replay)
    let titleDiff : Option (Option String × Option String) :=
      if otitle original == otitle replay then none
      else some (otitle original, otitle replay)
    let clDiff : Option ContentLenDiff :=
      match ocontent original, ocontent replay with
      | some a, some b =>
        if jsTruthyStr a && jsTruthyStr b then
          let la := a.length
          let lb := b.length
          let dd := max la lb - min la lb
          if 10 * dd > la then some ⟨la, lb, dd⟩ else none
        else none
      | _, _ => none
    { matchFlag := !hasSignificantDifferences,
      differences :=
        if urlDiff.isSome || titleDiff.isSome || clDiff.isSome then
          some (.deep ⟨urlDiff, titleDiff, clDiff⟩)
        else none }

/-- Viewport snapshot, numbers modelled as integers. -/
structure Viewport where
  width : Int
  height : Int

/-- Session metadata (interface Session, part_005 lines 37-41). -/
structure SMeta where
  name : Option String := none
  description : Option String := none
  tags : Option (List String) := none

/-- Session config snapshot (interface Session, part_005 lines 42-46). -/
structure SConfig where
  headless : Option Bool := none
  viewport : Option Viewport := none
  userAgent : Option String := none

/-- One recorded tool invocation (interface ActionRecord, part_005 lines
5-28).  parameters is the sanitized bag; result is the capture-processed
payload, modelled over its recognized fields; metadata and pageData are kept
as opaque JSON values. -/
structure ActionRecord where
  id : String
  timestamp : String
  tool : String
  parameters : List (String × JVal)
  result : Option RObj := none
  error : Option String := none
  duration : Option Int := none
  metadata : Option JVal := none
  pageData : Option JVal := none

/-- One recorded session (interface Session, part_005 lines 30-47). -/
structure Session where
  id : String
  instanceId : String
  browserType : String
  startedAt : String
  endedAt : Option String := none
  actions : List ActionRecord
  metadata : Option SMeta := none
  config : Option SConfig := none

/-- In-memory state of a SessionRecorder (part_005 lines 50-54): the session
map keyed by instance id (kept as an insertion-ordered association list, as
a JavaScript Map), the two policy toggles, the auto-save flag, and the log
of persisted files written by saveSession, each as session id paired with
the serialized document. -/
structure RecState where
  sessions : List (String × Session) := []
  recordingEnabled : Bool := true
  autoSave : Bool := true
  captureFullPageData : Bool := true
  persisted : List (String × JVal) := []

/-- JavaScript Map.prototype.set: overwrite in place when the key exists,
append otherwise. -/
def mapSet (m : List (String × Session)) (k : String) (v : Session) :
    List (String × Session) :=
  if m.any (fun p => p.1 == k) then
    m.map (fun p => if p.1 == k then (k, v) else p)
  else m ++ [(k, v)]

/-- Configuration passed to startSession (part_005 lines 85-91). -/
structure StartConfig where
  browserType : String
  headless : Option Bool := none
  viewport : Option Viewport := none
  userAgent : Option String := none
  metadata : Option SMeta := none

/-- Raw action tuple passed to recordAction (part_005 lines 121-128). -/
structure ActionInput where
  tool : String
  parameters : List (String × JVal)
  result : Option RObj := none
  error : Option String := none
  metadata : Option JVal := none
  pageData : Option JVal := none

/-- The ActionRecord built by recordAction (part_005 lines 135-145): fresh
id and timestamp are inputs of the model (uuidv4 and the clock are
external); parameters are sanitized; a truthy result is processed by the
capture policy, an absent one stored as undefined; duration is the clock
difference measured around the record construction, again an input. -/
def mkActionRecord (captureFullPageData : Bool) (aid ts : String) (dur : Int)
    (a : ActionInput) : ActionRecord :=
  { id := aid
    timestamp := ts
    tool := a.tool
    parameters := sanitizeParameters a.parameters
    result := a.result.map (processResult captureFullPageData a.tool)
    error := a.error
    duration := some dur
    metadata := a.metadata
    pageData := a.pageData }

/-- JSON document written for a session by saveSession.  Keys with undefined
values are omitted by JSON.stringify; object keys follow insertion order.
Strings, booleans and integers round through the JSON text unchanged, so the
document is modelled at the level of the parsed value. -/
def encodeViewport (v : Viewport) : JVal :=
  .obj [("width", .num v.width), ("height", .num v.height)]

/-- Structural reading of a viewport object. -/
def decodeViewport : JVal → Option Viewport
  | .obj l =>
    match List.lookup "width" l, List.lookup "height" l with
    | some (.num w), some (.num h) => some ⟨w, h⟩
    | _, _ => none
  | _ => none

/-- Object entry present exactly when the field is defined. -/
def optField (k : String) : Option JVal → List (String × JVal)
  | none => []
  | some v => [(k, v)]

/-- Serialized form of the session metadata object. -/
def encodeSMeta (m : SMeta) : JVal :=
  .obj (optField "name" (m.name.map .str) ++
        optField "description" (m.description.map .str) ++
        optField "tags" (m.tags.map (fun ts => .arr (ts.map .str))))

/-- Reading of one JSON string. -/
def decodeStr : JVal → Option String
  | .str s => some s
  | _ => none

/-- Reading of one JSON boolean. -/
def decodeBool : JVal → Option Bool
  | .bool b => some b
  | _ => none

/-- Reading of one JSON integer. -/
def decodeNum : JVal → Option Int
  | .num n => some n
  | _ => none

/-- Reading of an optional field: an absent key decodes to undefined. -/
def decodeOpt (o : Option JVal) (f : JVal → Option α) : Option (Option α) :=
  match o with
  | none => some none
  | some j => (f j).map some

/-- Elementwise reading of a JSON array into a list. -/
def decodeList (f : JVal → Option α) : List JVal → Option (List α)
  | [] => some []
  | j :: js =>
    match f j, decodeList f js with
    | some a, some rest => some (a :: rest)
    | _, _ => none

/-- Structural reading of the session metadata object. -/
def decodeSMeta : JVal → Option SMeta
  | .obj l =>
    match decodeOpt (List.lookup "name" l) decodeStr with
    | none => none
    | some nm =>
      match decodeOpt (List.lookup "description" l) decodeStr with
      | none => none
      | some ds =>
        match decodeOpt (List.lookup "tags" l)
            (fun j => match j with
                      | .arr ts => decodeList decodeStr ts
                      | _ => none) with
        | none => none
        | some tg => some ⟨nm, ds, tg⟩
  | _ => none

/-- Serialized form of the session config object. -/
def encodeSConfig (c : SConfig) : JVal :=
  .obj (optField "headless" (c.headless.map .bool) ++
        optField "viewport" (c.viewport.map encodeViewport) ++
        optField "userAgent" (c.userAgent.map .str))

/-- Structural reading of the session config object. -/
def decodeSConfig : JVal → Option SConfig
  | .obj l =>
    match decodeOpt (List.lookup "headless" l) decodeBool with
    | none => none
    | some hd =>
      match decodeOpt (List.lookup "viewport" l) decodeViewport with
      | none => none
      | some vp =>
        match decodeOpt (List.lookup "userAgent" l) decodeStr with
        | none => none
        | some ua => some ⟨hd, vp, ua⟩
  | _ => none

/-- Serialized form of a recorded result object. -/
def encodeRData (d : RData) : JVal :=
  .obj (optField "url" (d.url.map .str) ++
        optField "title" (d.title.map .str) ++
        optField "html" (d.html.map .str) ++
        optField "markdown" (d.markdown.map .str) ++
        optField "content" (d.content.map .str) ++
        optField "screenshot" (d.screenshot.map .str))

/-- Structural reading of a result data object. -/
def decodeRData : JVal → Option RData
  | .obj l =>
    match decodeOpt (List.lookup "url" l) decodeStr with
    | none => none
    | some u =>
      match decodeOpt (List.lookup "title" l) decodeStr with
      | none => none
      | some t =>
        match decodeOpt (List.lookup "html" l) decodeStr with
        | none => none
        | some h =>
          match decodeOpt (List.lookup "markdown" l) decodeStr with
          | none => none
          | some m =>
            match decodeOpt (List.lookup "content" l) decodeStr with
            | none => none
            | some c =>
              match decodeOpt (List.lookup "screenshot" l) decodeStr with
              | none => none
              | some sc => some ⟨u, t, h, m, c, sc⟩
  | _ => none

/-- Serialized form of a recorded result. -/
def encodeRObj (r : RObj) : JVal :=
  .obj (optField "success" (r.success.map .bool) ++
        optField "data" (r.data.map encodeRData) ++
        optField "error" (r.error.map .str))

/-- Structural reading of a recorded result. -/
def decodeRObj : JVal → Option RObj
  | .obj l =>
    match decodeOpt (List.lookup "success" l) decodeBool with
    | none => none
    | some su =>
      match decodeOpt (List.lookup "data" l) decodeRData with
      | none => none
      | some da =>
        match decodeOpt (List.lookup "error" l) decodeStr with
        | none => none
        | some er => some ⟨su, da, er⟩
  | _ => none

/-- Serialized form of one ActionRecord, keys in the insertion order of the
record literal built by recordAction (part_005 lines 135-145). -/
def encodeActionRecord (a : ActionRecord) : JVal :=
  .obj ([("id", .str a.id), ("timestamp", .str a.timestamp),
         ("tool", .str a.tool), ("parameters", .obj a.parameters)] ++
        optField "result" (a.result.map encodeRObj) ++
        optField "error" (a.error.map .str) ++
        optField "duration" (a.duration.map .num) ++
        optField "metadata" a.metadata ++
        optField "pageData" a.pageData)

/-- Structural reading of one ActionRecord. -/
def decodeActionRecord : JVal → Option ActionRecord
  | .obj l =>
    match List.lookup "id" l, List.lookup "timestamp" l,
        List.lookup "tool" l, List.lookup "parameters" l with
    | some (.str i), some (.str ts), some (.str tl), some (.obj ps) =>
      match decodeOpt (List.lookup "result" l) decodeRObj with
      | none => none
      | some rs =>
        match decodeOpt (List.lookup "error" l) decodeStr with
        | none => none
        | some er =>
          match decodeOpt (List.lookup "duration" l) decodeNum with
          | none => none
          | some du =>
            match decodeOpt (List.lookup "metadata" l) some with
            | none => none
            | some md =>
              match decodeOpt (List.lookup "pageData" l) some with
              | none => none
              | some pd => some ⟨i, ts, tl, ps, rs, er, du, md, pd⟩
    | _, _, _, _ => none
  | _ => none

/-- Serialized form of a Session, as written by saveSession (part_005 line
202, JSON.stringify of the session object). -/
def encodeSession (s : Session) : JVal :=
  .obj ([("id", .str s.id), ("instanceId", .str s.instanceId),
         ("browserType", .str s.browserType), ("startedAt", .str s.startedAt)] ++
        optField "endedAt" (s.endedAt.map .str) ++
        [("actions", .arr (s.actions.map encodeActionRecord))] ++
        optField "metadata" (s.metadata.map encodeSMeta) ++
        optField "config" (s.config.map encodeSConfig))

/-- Structural reading of a Session document, as loadSession materializes the
parsed JSON (part_005 lines 210-213). -/
def decodeSession : JVal → Option Session
  | .obj l =>
    match List.lookup "id" l, List.lookup "instanceId" l,
        List.lookup "browserType" l, List.lookup "startedAt" l with
    | some (.str i), some (.str ii), some (.str bt), some (.str st) =>
      match decodeOpt (List.lookup "endedAt" l) decodeStr with
      | none => none
      | some ed =>
        match List.lookup "actions" l with
        | some (.arr acts) =>
          match decodeList decodeActionRecord acts with
          | none => none
          | some as' =>
            match decodeOpt (List.lookup "metadata" l) decodeSMeta with
            | none => none
            | some md =>
              match decodeOpt (List.lookup "config" l) decodeSConfig with
              | none => none
              | some cf => some ⟨i, ii, bt, st, ed, as', md, cf⟩
        | _ => none
    | _, _, _, _ => none
  | _ => none

/-- SessionRecorder.saveSession (part_005 lines 193-205): throws when no
session is mapped to the instance, otherwise serializes the session and
writes one file, returning the path.  The file is modelled by the session id
paired with the serialized document (the real name also embeds a timestamp);
the write is appended to the persisted log of the state. -/
def saveSessionM (st : RecState) (instanceId : String) :
    Except String (String × RecState) :=
  match List.lookup instanceId st.sessions with
  | none => .error ("Session not found for instance: " ++ instanceId)
  | some sess =>
    .ok (sess.id, { st with persisted := st.persisted ++ [(sess.id, encodeSession sess)] })

/-- SessionRecorder.startSession (part_005 lines 85-116): returns the empty
identifier at once when recording is disabled; otherwise builds a fresh
session (uuid and clock are inputs of the model), stores it under the
instance id, persists it when auto-save is on, and returns the new session
id.  Thrown exceptions are modelled by the error case, which startSession
itself never produces. -/
def startSession (st : RecState) (instanceId : String) (config : StartConfig)
    (sid now : String) : Except String (String × RecState) :=
  if !st.recordingEnabled then .ok ("", st)
  else
    let session : Session :=
      { id := sid
        instanceId := instanceId
        browserType := config.browserType
        startedAt := now
        endedAt := none
        actions := []
        metadata := config.metadata
        config := some ⟨config.headless, config.viewport, config.userAgent⟩ }
    let st' := { st with sessions := mapSet st.sessions instanceId session }
    if st.autoSave then (saveSessionM st' instanceId).map (fun p => (sid, p.2))
    else .ok (sid, st')

/-- SessionRecorder.recordAction (part_005 lines 121-152): a no-op when
recording is disabled or no session is mapped to the instance; otherwise
appends the sanitized record to the session and persists when auto-save is
on. -/
def recordAction (st : RecState) (instanceId : String) (a : ActionInput)
    (aid ts : String) (dur : Int) : Except String RecState :=
  if !st.recordingEnabled then .ok st
  else
    match List.lookup instanceId st.sessions with
    | none => .ok st
    | some sess =>
      let rcd := mkActionRecord st.captureFullPageData aid ts dur a
      let sess' := { sess with actions := sess.actions ++ [rcd] }
      let st' := { st with sessions := mapSet st.sessions instanceId sess' }
      if st.autoSave then (saveSessionM st' instanceId).map (fun p => p.2)
      else .ok st'

/-- SessionRecorder.endSession (part_005 lines 157-174): a no-op when
recording is disabled or no session is mapped; otherwise stamps endedAt and
persists when auto-save is on.  The delayed in-memory eviction timer is
outside this state model. -/
def endSession (st : RecState) (instanceId : String) (now : String) :
    Except String RecState :=
  if !st.recordingEnabled then .ok st
  else
    match List.lookup instanceId st.sessions with
    | none => .ok st
    | some sess =>
      let sess' := { sess with endedAt := some now }
      let st' := { st with sessions := mapSet st.sessions instanceId sess' }
      if st.autoSave then (saveSessionM st' instanceId).map (fun p => p.2)
      else .ok st'

/-- Parameter-bag update performed before each replayed call (part_005 line
452): spread of the recorded parameters with instanceId set to the new
instance, overwriting in place when the key exists and appended otherwise. -/
def setInstanceId (bag : List (String × JVal)) (iid : String) :
    List (String × JVal) :=
  if bag.any (fun p => p.1 == "instanceId") then
    bag.map (fun p => if p.1 == "instanceId" then (p.1, .str iid) else p)
  else bag ++ [("instanceId", .str iid)]

/-- Tool calls issued against the tool surface by the action loop of
SessionRecorder.replaySession (part_005 lines 445-465): every recorded
action, in original order, is re-invoked exactly once with the new instance
identity substituted; the loop applies no filter to the action list. -/
def replayIssuedCalls (actions : List ActionRecord) (newInstanceId : String) :
    List (String × List (String × JVal)) :=
  actions.map (fun a => (a.tool, setInstanceId a.parameters newInstanceId))

/-- Action list traversed by replaySessionWithVerification (part_005 lines
512-515): instance-creation actions are filtered out before the loop. -/
def verificationActionsToReplay (actions : List ActionRecord) : List ActionRecord :=
  actions.filter (fun a => !(a.tool == "browser_create_instance"))

mutual

/-- JavaScript template-literal conversion of a JSON value, for string
interpolation sites; array elements are joined with commas and objects print
as the fixed object tag. -/
def jsTemplateV : JVal → String
  | .null => "null"
  | .bool b => if b then "true" else "false"
  | .num n => toString n
  | .str s => s
  | .arr l => String.intercalate "," (jsTemplateList l)
  | .obj _ => "[object Object]"

/-- Template conversions of the elements of an array value. -/
def jsTemplateList : List JVal → List String
  | [] => []
  | v :: vs => jsTemplateV v :: jsTemplateList vs

end

/-- Template conversion of a possibly-absent value (undefined prints as the
literal word). -/
def jsTemplate : Option JVal → String
  | none => "undefined"
  | some v => jsTemplateV v

/-- Interpolated string parameter of an action. -/
def pstr (a : ActionRecord) (k : String) : String :=
  jsTemplate (List.lookup k a.parameters)

/-- JavaScript nullish coalescing: null and undefined fall back to the
default. -/
def jsNullish (o : Option JVal) (d : JVal) : JVal :=
  match o with
  | none => d
  | some .null => d
  | some v => v

/-- JavaScript logical-or fallback on a value: a falsy value falls back to
the default. -/
def jsOrVal (o : Option JVal) (d : JVal) : JVal :=
  match o with
  | none => d
  | some v => if jsTruthy v then v else d

/-- The single quote character, written by its code. -/
def qc : String := "\x27"

/-- SessionRecorder.actionToPlaywrightCommand (part_005 lines 297-335): the
per-tool statement emitted into the exported standalone script.  Parameter
values are interpolated verbatim (no escaping appears in this function);
unknown tools produce no statement. -/
def actionToPlaywrightCommand (a : ActionRecord) : Option String :=
  match a.tool with
  | "browser_navigate" => some ("await page.goto(" ++ qc ++ pstr a "url" ++ qc ++ ");")
  | "browser_click" => some ("await page.click(" ++ qc ++ pstr a "selector" ++ qc ++ ");")
  | "browser_type" =>
    some ("await page.type(" ++ qc ++ pstr a "selector" ++ qc ++ ", " ++ qc ++
          pstr a "text" ++ qc ++ ");")
  | "browser_fill" =>
    some ("await page.fill(" ++ qc ++ pstr a "selector" ++ qc ++ ", " ++ qc ++
          pstr a "value" ++ qc ++ ");")
  | "browser_select_option" =>
    some ("await page.selectOption(" ++ qc ++ pstr a "selector" ++ qc ++ ", " ++ qc ++
          pstr a "value" ++ qc ++ ");")
  | "browser_screenshot" =>
    some ("await page.screenshot(\x7b fullPage: " ++
          jsTemplate (some (jsNullish (List.lookup "fullPage" a.parameters) (.bool false))) ++
          " \x7d);")
  | "browser_go_back" => some "await page.goBack();"
  | "browser_go_forward" => some "await page.goForward();"
  | "browser_refresh" => some "await page.reload();"
  | "browser_wait_for_element" =>
    some ("await page.waitForSelector(" ++ qc ++ pstr a "selector" ++ qc ++ ");")
  | "browser_evaluate" =>
    some ("await page.evaluate(() => \x7b " ++ pstr a "script" ++ " \x7d);")
  | _ => none

/-- The replace(/'/g, double-backslash-quote) escaping used by
actionToPlaywrightTest (part_005 lines 848 and 852): every single quote is
replaced by a backslash followed by a quote. -/
def escSingleQuotes (s : String) : String :=
  String.mk (s.data.foldr
    (fun c acc => if c = '\x27' then '\\' :: '\x27' :: acc else c :: acc) [])

/-- SessionRecorder.actionToPlaywrightTest (part_005 lines 839-886): the
per-tool statement emitted into the generated test.  Only the text of a type
action and the value of a fill action are quote-escaped; every other
interpolation is verbatim.  Pure-read tools and unknown tools produce no
statement.  The model covers the schema-conformant case in which the
parameters read by replace are strings; on other values the source would
fault at the replace call before producing source text. -/
def actionToPlaywrightTest (a : ActionRecord) : Option String :=
  match a.tool with
  | "browser_navigate" => some ("  await page.goto(" ++ qc ++ pstr a "url" ++ qc ++ ");")
  | "browser_click" => some ("  await page.click(" ++ qc ++ pstr a "selector" ++ qc ++ ");")
  | "browser_type" =>
    some ("  await page.type(" ++ qc ++ pstr a "selector" ++ qc ++ ", " ++ qc ++
          escSingleQuotes (pstr a "text") ++ qc ++ ");")
  | "browser_fill" =>
    some ("  await page.fill(" ++ qc ++ pstr a "selector" ++ qc ++ ", " ++ qc ++
          escSingleQuotes (pstr a "value") ++ qc ++ ");")
  | "browser_select_option" =>
    some ("  await page.selectOption(" ++ qc ++ pstr a "selector" ++ qc ++ ", " ++ qc ++
          pstr a "value" ++ qc ++ ");")
  | "browser_screenshot" =>
    some ("  await page.screenshot(\x7b fullPage: " ++
          jsTemplate (some (jsNullish (List.lookup "fullPage" a.parameters) (.bool false))) ++
          " \x7d);")
  | "browser_go_back" => some "  await page.goBack();"
  | "browser_go_forward" => some "  await page.goForward();"
  | "browser_refresh" => some "  await page.reload();"
  | "browser_wait_for_element" =>
    some ("  await page.waitForSelector(" ++ qc ++ pstr a "selector" ++ qc ++
          ", \x7b timeout: " ++
          jsTemplate (some (jsOrVal (List.lookup "timeout" a.parameters) (.num 30000))) ++
          " \x7d);")
  | "browser_evaluate" =>
    some ("  await page.evaluate(() => \x7b " ++ pstr a "script" ++ " \x7d);")
  | "browser_get_page_info" => none
  | "browser_get_element_text" => none
  | "browser_get_element_attribute" => none
  | "browser_get_markdown" => none
  | _ => none

/-- Array.prototype.join with a newline separator, as used on the emitted
line list (part_005 line 833). -/
def joinLines : List String → String
  | [] => ""
  | [l] => l
  | l :: ls => l ++ "\n" ++ joinLines ls

/-- Generation options of generatePlaywrightTest (part_005 lines 761-765). -/
structure GenOptions where
  testName : Option String := none
  expectedString : Option String := none
  timeout : Option Int := none

/-- JavaScript logical-or fallback on an optional string (an empty string
falls back to the default). -/
def jsOrStr (o : Option String) (d : String) : String :=
  match o with
  | none => d
  | some s => if s == "" then d else s

/-- JavaScript logical-or fallback on an optional number (zero falls back to
the default). -/
def jsOrInt (o : Option Int) (d : Int) : Int :=
  match o with
  | none => d
  | some n => if n == 0 then d else n

/-- Simple concatenating map over a list. -/
def concatMap (f : α → List β) : List α → List β
  | [] => []
  | x :: xs => f x ++ concatMap f xs

/-- Lines pushed for one replayed action by the loop of
generatePlaywrightTest (part_005 lines 805-817): a comment naming the tool,
the mapped statement when one exists, a fixed settle delay, and a blank
line. -/
def testActionBlock (a : ActionRecord) : List String :=
  ["  // Action: " ++ a.tool] ++
  (match actionToPlaywrightTest a with
   | some code => [code]
   | none => []) ++
  ["  await page.waitForTimeout(100);", ""]

/-- Line list built by generatePlaywrightTest (part_005 lines 787-831) for a
resolved session: header and test declaration, optional viewport setup, one
block per action other than instance creation, the optional
expected-substring assertion, and the final liveness assertion before the
closing brace. -/
def genTestLines (s : Session) (o : GenOptions) : List String :=
  let testName := jsOrStr o.testName ("Test session " ++ s.id)
  let timeout := jsOrInt o.timeout 30000
  (["import \x7b test, expect \x7d from " ++ qc ++ "@playwright/test" ++ qc ++ ";",
    "",
    "test(" ++ qc ++ testName ++ qc ++ ", async (\x7b page \x7d) => \x7b",
    "  test.setTimeout(" ++ toString timeout ++ ");",
    ""] ++
   (match s.config with
    | some cfg =>
      match cfg.viewport with
      | some vp =>
        ["  // Set viewport",
         "  await page.setViewportSize(\x7b width: " ++ toString vp.width ++
           ", height: " ++ toString vp.height ++ " \x7d);",
         ""]
      | none => []
    | none => []) ++
   concatMap testActionBlock
     (s.actions.filter (fun a => !(a.tool == "browser_create_instance"))) ++
   (match o.expectedString with
    | some es =>
      if es == "" then []
      else
        ["  // Verify expected content",
         "  const content = await page.content();",
         "  expect(content).toContain(" ++ qc ++ escSingleQuotes es ++ qc ++ ");"]
    | none => [])) ++
  ["  // Verify page loaded without errors",
   "  const url = page.url();",
   "  expect(url).toBeTruthy();",
   "\x7d);"]

/-- Source text of SessionRecorder.generatePlaywrightTest (part_005 lines
759-834) for a session already resolved by id or path. -/
def generatePlaywrightTest (s : Session) (o : GenOptions) : String :=
  joinLines (genTestLines s o)

/-! Helper lemmas shared by the claim theorems. -/

/-- Lookup of a key in a sanitized bag is the entry transform of the lookup
in the original bag. -/
theorem lookup_sanitizeParameters (params : List (String × JVal)) (k : String) :
    List.lookup k (sanitizeParameters params) =
      (List.lookup k params).map (sanitizeEntry k) := by
  induction params with
  | nil => rfl
  | cons p rest ih =>
    obtain ⟨a, b⟩ := p
    simp only [sanitizeParameters, List.map_cons, List.lookup] at *
    cases h : (k == a) with
    | true =>
      have : k = a := by exact eq_of_beq h
      subst this
      simp
    | false => simpa [h] using ih

/-- Lookup after a map-set at the same key yields the written value. -/
theorem lookup_mapSet_self (m : List (String × Session)) (k : String) (v : Session) :
    List.lookup k (mapSet m k v) = some v := by
  induction m with
  | nil => simp [mapSet, List.lookup]
  | cons p rest ih =>
    cases h : (p.1 == k) with
    | true =>
      simp only [mapSet, List.any_cons, h, Bool.true_or, if_true, List.map_cons,
        List.lookup, beq_self_eq_true]
    | false =>
      have hk : (k == p.1) = false := by
        simp only [beq_eq_false_iff_ne, ne_eq] at h ⊢
        exact fun e => h e.symm
      cases h2 : rest.any (fun q => q.1 == k) with
      | true =>
        simp only [mapSet, List.any_cons, h, Bool.false_or, h2, if_true,
          List.map_cons, List.lookup, hk] at ih ⊢
        exact ih
      | false =>
        simp only [mapSet, List.any_cons, h, Bool.false_or, h2,
          Bool.false_eq_true, if_false, List.cons_append, List.lookup, hk] at ih ⊢
        exact ih

/-- A one-element join equation for nonempty tails. -/
theorem joinLines_cons_ne (l : String) (ls : List String) (h : ls ≠ []) :
    joinLines (l :: ls) = l ++ "\n" ++ joinLines ls := by
  cases ls with
  | nil => exact absurd rfl h
  | cons x xs => rfl

/-- The join of a nonempty tail is a suffix of the join of any extension of
it on the left. -/
theorem joinLines_suffix (xs ys : List String) (h : ys ≠ []) :
    (joinLines ys).data <:+ (joinLines (xs ++ ys)).data := by
  induction xs with
  | nil => exact List.suffix_refl _
  | cons x xs ih =>
    have hne : xs ++ ys ≠ [] := by
      intro he
      exact h (List.append_eq_nil.mp he).2
    rw [List.cons_append, joinLines_cons_ne x (xs ++ ys) hne]
    rw [String.data_append]
    exact ih.trans (List.suffix_append _ _)

/-- Decoding after elementwise encoding recovers the list. -/
theorem decodeList_encode (f : JVal → Option α) (g : α → JVal)
    (hfg : ∀ a, f (g a) = some a) (l : List α) :
    decodeList f (l.map g) = some l := by
  induction l with
  | nil => rfl
  | cons a rest ih => simp [decodeList, hfg, ih]

/-- Viewport objects round through the document form. -/
theorem decodeViewport_encode (v : Viewport) :
    decodeViewport (encodeViewport v) = some v := rfl

/-- Session metadata rounds through the document form. -/
theorem decodeSMeta_encode (m : SMeta) : decodeSMeta (encodeSMeta m) = some m := by
  obtain ⟨nm, ds, tg⟩ := m
  cases nm <;> cases ds <;> cases tg <;>
    simp [encodeSMeta, decodeSMeta, optField, decodeOpt, decodeStr, List.lookup,
      decodeList_encode decodeStr JVal.str (fun a => rfl)]

/-- Session config rounds through the document form. -/
theorem decodeSConfig_encode (c : SConfig) : decodeSConfig (encodeSConfig c) = some c := by
  obtain ⟨hd, vp, ua⟩ := c
  cases hd <;> cases vp <;> cases ua <;>
    simp [encodeSConfig, decodeSConfig, optField, decodeOpt, decodeStr, decodeBool,
      List.lookup, encodeViewport, decodeViewport]

/-- Result data rounds through the document form. -/
theorem decodeRData_encode (d : RData) : decodeRData (encodeRData d) = some d := by
  obtain ⟨u, t, h, m, c, sc⟩ := d
  cases u <;> cases t <;> cases h <;> cases m <;> cases c <;> cases sc <;>
    simp [encodeRData, decodeRData, optField, decodeOpt, decodeStr, List.lookup]

/-- Result objects round through the document form. -/
theorem decodeRObj_encode (r : RObj) : decodeRObj (encodeRObj r) = some r := by
  obtain ⟨su, da, er⟩ := r
  cases su <;> cases da <;> cases er <;>
    simp [encodeRObj, decodeRObj, optField, decodeOpt, decodeStr, decodeBool,
      List.lookup, decodeRData_encode]

/-- Action records round through the document form. -/
theorem decodeActionRecord_encode (a : ActionRecord) :
    decodeActionRecord (encodeActionRecord a) = some a := by
  obtain ⟨i, ts, tl, ps, rs, er, du, md, pd⟩ := a
  cases rs <;> cases er <;> cases du <;> cases md <;> cases pd <;>
    simp [encodeActionRecord, decodeActionRecord, optField, decodeOpt, decodeStr,
      decodeNum, List.lookup, decodeRObj_encode]

/-! Claim theorems. -/

set_option maxRecDepth 40000 in
/-- Claim C1, evaluated at the failing input of the spec scenario: with deep
comparison enabled, original content of 500 characters against replay
content of 520 characters (4 percent growth) yields match true with no
difference entry, as the claim states; but against replay content of 700
characters (40 percent growth) the comparator still reports match true,
merely attaching a contentLength difference entry, because compareResults
records the oversized length drift without ever marking it significant.
The claim (and the spec scenario) requires match false there, so the code
contradicts the specified behavior. -/
theorem compareResults_content_drift_eval :
    compareResults
        (some { success := some true,
                data := some { content := some (String.mk (List.replicate 500 'X')) } })
        (some { success := some true,
                data := some { content := some (String.mk (List.replicate 520 'X')) } })
        "browser_get_markdown" true =
      { matchFlag := true, differences := none } ∧
    compareResults
        (some { success := some true,
                data := some { content := some (String.mk (List.replicate 500 'X')) } })
        (some { success := some true,
                data := some { content := some (String.mk (List.replicate 700 'X')) } })
        "browser_get_markdown" true =
      { matchFlag := true,
        differences := some (.deep { contentLength := some ⟨500, 700, 200⟩ }) } := by
  exact ⟨rfl, rfl⟩

/-- Concrete recorded action used in replay and codegen evaluations. -/
def mkAct (tool : String) (params : List (String × JVal)) : ActionRecord :=
  { id := "a1", timestamp := "t1", tool := tool, parameters := params }

/-- Claim C2, evaluated at the failing input: the action loop of the basic
replaySession applies no filter, so a recorded browser_create_instance
action is re-issued against the tool surface together with every other
action, instead of being skipped as the claim states; only the verification
variant filters such actions out before its loop. -/
theorem replaySession_reissues_create_instance :
    replayIssuedCalls
        [mkAct "browser_create_instance" [("browserType", .str "chromium")],
         mkAct "browser_navigate"
           [("url", .str "https://example.com"), ("instanceId", .str "old-1")]]
        "new-1" =
      [("browser_create_instance",
        [("browserType", .str "chromium"), ("instanceId", .str "new-1")]),
       ("browser_navigate",
        [("url", .str "https://example.com"), ("instanceId", .str "new-1")])] ∧
    verificationActionsToReplay
        [mkAct "browser_create_instance" [("browserType", .str "chromium")],
         mkAct "browser_navigate"
           [("url", .str "https://example.com"), ("instanceId", .str "old-1")]] =
      [mkAct "browser_navigate"
        [("url", .str "https://example.com"), ("instanceId", .str "old-1")]] := by
  exact ⟨rfl, rfl⟩

/-- Claim C3 counterexample: a parameter bag whose password key holds the
empty string passes the sensitive key through unredacted, because the
sanitizer guards redaction behind a truthiness test of the current value;
the stored record keeps the original value rather than the redaction
marker, refuting the claim for that original value. -/
theorem sanitizeParameters_empty_password_kept :
    List.lookup "password"
        (mkActionRecord true "a1" "t1" 0
            { tool := "browser_fill",
              parameters := [("selector", .str "#pw"), ("password", .str "")] }).parameters =
      some (.str "") ∧
    JVal.str "" ≠ JVal.str "***REDACTED***" := by
  exact ⟨rfl, by simp⟩

/-- Claim C3 as amended: for every enabled recorder state with an open
session, every parameter bag whose denylisted key (password, token, apiKey
or secret, case-sensitive) holds a truthy value is stored with that key
bound to the fixed redaction marker, never the original value, under both
capture modes (the capture toggle of the state is arbitrary). -/
theorem recordAction_redacts_truthy_sensitive (st : RecState) (instanceId : String)
    (sess : Session) (a : ActionInput) (aid ts : String) (dur : Int)
    (k : String) (v : JVal)
    (henabled : st.recordingEnabled = true)
    (hsess : List.lookup instanceId st.sessions = some sess)
    (hk : sensitiveFields.contains k = true)
    (hv : List.lookup k a.parameters = some v)
    (htruthy : jsTruthy v = true) :
    ∃ st', recordAction st instanceId a aid ts dur = .ok st' ∧
      ∃ sess', List.lookup instanceId st'.sessions = some sess' ∧
        sess'.actions =
          sess.actions ++ [mkActionRecord st.captureFullPageData aid ts dur a] ∧
        List.lookup k
            (mkActionRecord st.captureFullPageData aid ts dur a).parameters =
          some (.str "***REDACTED***") := by
  have hpar : List.lookup k
      (mkActionRecord st.captureFullPageData aid ts dur a).parameters =
      some (.str "***REDACTED***") := by
    simp only [mkActionRecord, lookup_sanitizeParameters, hv, Option.map_some']
    unfold sanitizeEntry
    rw [hk, htruthy]
    rfl
  cases hsave : st.autoSave with
  | true =>
    simp only [recordAction, henabled, Bool.not_true, Bool.false_eq_true, if_false,
      hsess, hsave, if_true, saveSessionM, lookup_mapSet_self, Except.map]
    exact ⟨_, rfl, _, lookup_mapSet_self _ _ _, rfl, hpar⟩
  | false =>
    simp only [recordAction, henabled, Bool.not_true, Bool.false_eq_true, if_false,
      hsess, hsave, if_false]
    exact ⟨_, rfl, _, lookup_mapSet_self _ _ _, rfl, hpar⟩

/-- Fresh empty session used by the redaction witness. -/
def c3Session : Session :=
  { id := "s1", instanceId := "inst-1", browserType := "chromium",
    startedAt := "t0", actions := [] }

/-- Enabled recorder state holding the witness session. -/
def c3State : RecState :=
  { sessions := [("inst-1", c3Session)], recordingEnabled := true,
    autoSave := false, captureFullPageData := true, persisted := [] }

/-- Action input with a truthy password parameter. -/
def c3Input : ActionInput :=
  { tool := "browser_fill",
    parameters := [("selector", .str "#pw"), ("password", .str "hunter2")] }

/-- Witness for the amended claim C3 at a concrete enabled state and bag. -/
theorem recordAction_redacts_truthy_sensitive_witness :
    ∃ st', recordAction c3State "inst-1" c3Input "a1" "t1" 0 = .ok st' ∧
      ∃ sess', List.lookup "inst-1" st'.sessions = some sess' ∧
        sess'.actions = c3Session.actions ++
          [mkActionRecord c3State.captureFullPageData "a1" "t1" 0 c3Input] ∧
        List.lookup "password"
            (mkActionRecord c3State.captureFullPageData "a1" "t1" 0 c3Input).parameters =
          some (.str "***REDACTED***") :=
  recordAction_redacts_truthy_sensitive c3State "inst-1" c3Session c3Input
    "a1" "t1" 0 "password" (.str "hunter2") rfl rfl rfl rfl rfl

/-- Claim C4, evaluated at the failing input: a recorded type action whose
text contains a single quote is exported by the script generator with the
quote embedded verbatim inside a single-quoted literal, producing a
syntactically broken statement, because actionToPlaywrightCommand performs
no escaping; only the test generator escapes this parameter, as the second
conjunct shows.  The claim requires escaping in both emitters. -/
theorem actionToPlaywrightCommand_unescaped_quote_eval :
    actionToPlaywrightCommand
        (mkAct "browser_type"
          [("selector", .str "#q"), ("text", .str "O\x27Brien")]) =
      some "await page.type(\x27#q\x27, \x27O\x27Brien\x27);" ∧
    actionToPlaywrightTest
        (mkAct "browser_type"
          [("selector", .str "#q"), ("text", .str "O\x27Brien")]) =
      some "  await page.type(\x27#q\x27, \x27O\\\x27Brien\x27);" := by
  exact ⟨rfl, rfl⟩

/-- Result whose data carries an html payload of 1001 characters. -/
def c5Result : RObj :=
  { success := some true,
    data := some { html := some (String.mk (List.replicate 1001 'a')) } }

set_option maxRecDepth 40000 in
/-- Claim C5, evaluated at the failing input: after sanitizeResult runs on a
result whose data.html holds 1001 characters, the caller-visible html field
of the original result object has length 1014 (the truncated text plus the
marker) instead of its original 1001 characters, because the shallow copy
shares the nested data object and the truncations are assigned into it in
place; the caller-supplied result is therefore observably mutated,
contradicting the claimed purity. -/
theorem sanitizeResult_mutates_caller_data_eval :
    ((sanitizeResultCallerView c5Result).data.bind RData.html).map String.length =
      some 1014 ∧
    (c5Result.data.bind RData.html).map String.length = some 1001 ∧
    sanitizeResultCallerView c5Result ≠ c5Result := by
  refine ⟨rfl, rfl, fun h => ?_⟩
  have h2 := congrArg (fun r => (r.data.bind RData.html).map String.length) h
  simp only [show ((sanitizeResultCallerView c5Result).data.bind RData.html).map
      String.length = some 1014 from rfl,
    show (c5Result.data.bind RData.html).map String.length = some 1001 from rfl] at h2
  exact absurd (Option.some.inj h2) (by decide)

/-- Claim C6: the persisted document written by saveSession decodes back to
the very session, every field included, for every session of the model
(whose payloads are JSON-representable by construction); this is the
loadSession-after-saveSession round trip at the level of the parsed
document, where JSON text serialization and parsing are mutually inverse. -/
theorem loadSession_saveSession_roundtrip (s : Session) :
    decodeSession (encodeSession s) = some s := by
  obtain ⟨i, ii, bt, st, ed, acts, md, cf⟩ := s
  cases ed <;> cases md <;> cases cf <;>
    simp [encodeSession, decodeSession, optField, decodeOpt, decodeStr, List.lookup,
      decodeSMeta_encode, decodeSConfig_encode,
      decodeList_encode decodeActionRecord encodeActionRecord decodeActionRecord_encode]

/-- Result whose data carries an empty screenshot string. -/
def c7Result : RObj := { success := some true, data := some { screenshot := some "" } }

/-- Claim C7 counterexample: in the truncating branch a screenshot field
holding the empty string is not replaced by the placeholder marker, because
the replacement is guarded by a truthiness test; the processed result is
unchanged, refuting the unconditional replacement stated by the claim. -/
theorem processResult_empty_screenshot_kept :
    processResult false "browser_click" c7Result = c7Result ∧
    (processResult false "browser_click" c7Result).data.bind RData.screenshot =
      some "" ∧
    some "" ≠ some "[SCREENSHOT_DATA]" := by
  refine ⟨rfl, rfl, by simp⟩

set_option maxRecDepth 10000 in
/-- Claim C7 as amended: if full capture is on and the tool is in the fixed
data-bearing set, processResult stores the input result verbatim; otherwise
each of the large-payload fields html, markdown and content longer than
1000 characters is stored as its first 1000 characters plus the truncation
marker, whose total length is exactly 1000 plus the marker length, and a
nonempty screenshot string is replaced by the placeholder marker (an empty
screenshot string is left unchanged, per the counterexample). -/
theorem processResult_capture_policy (cf : Bool) (tool : String) (r : RObj) :
    ((cf && dataCapturingTools.contains tool) = true →
      processResult cf tool r = r) ∧
    ((cf && dataCapturingTools.contains tool) = false →
      ∀ d, r.data = some d →
        ∃ d', (processResult cf tool r).data = some d' ∧
          (∀ s, d.html = some s → 1000 < s.length →
            d'.html = some (jsSubstringTo s 1000 ++ truncMarker) ∧
            (jsSubstringTo s 1000 ++ truncMarker).length = 1000 + truncMarker.length) ∧
          (∀ s, d.markdown = some s → 1000 < s.length →
            d'.markdown = some (jsSubstringTo s 1000 ++ truncMarker)) ∧
          (∀ s, d.content = some s → 1000 < s.length →
            d'.content = some (jsSubstringTo s 1000 ++ truncMarker)) ∧
          (∀ s, d.screenshot = some s → jsTruthyStr s = true →
            d'.screenshot = some "[SCREENSHOT_DATA]")) := by
  constructor
  · intro h
    unfold processResult
    rw [h]
    simp
  · intro h d hd
    refine ⟨truncRData d, ?_, ?_, ?_, ?_, ?_⟩
    · unfold processResult
      rw [h]
      simp [sanitizeResult, hd]
    · intro s hs hlen
      constructor
      · simp only [truncRData, hs]
        simp [hlen]
      · have hsub : (jsSubstringTo s 1000).length = 1000 := by
          have hsl : s.length = s.data.length := rfl
          have hmk : (jsSubstringTo s 1000).length = (s.data.take 1000).length := rfl
          rw [hmk, List.length_take]
          omega
        simp [String.length_append, hsub]
    · intro s hs hlen
      simp only [truncRData, hs]
      simp [hlen]
    · intro s hs hlen
      simp only [truncRData, hs]
      simp [hlen]
    · intro s hs htr
      simp only [truncRData, hs]
      simp [htr]

set_option maxRecDepth 40000 in
/-- Witness for the amended claim C7: the 1001-character html payload of
c5Result is kept verbatim for a data-bearing tool under full capture, and
truncated to exactly 1000 characters plus the marker otherwise. -/
theorem processResult_capture_policy_witness :
    processResult true "browser_navigate" c5Result = c5Result ∧
    ∃ d', (processResult false "browser_navigate" c5Result).data = some d' ∧
      d'.html =
        some (jsSubstringTo (String.mk (List.replicate 1001 'a')) 1000 ++ truncMarker) ∧
      (jsSubstringTo (String.mk (List.replicate 1001 'a')) 1000 ++ truncMarker).length =
        1000 + truncMarker.length := by
  refine ⟨(processResult_capture_policy true "browser_navigate" c5Result).1 rfl, ?_⟩
  obtain ⟨d', hd', hhtml, -, -, -⟩ :=
    (processResult_capture_policy false "browser_navigate" c5Result).2 rfl _ rfl
  obtain ⟨h1, h2⟩ := hhtml (String.mk (List.replicate 1001 'a')) rfl (by decide)
  exact ⟨d', hd', h1, h2⟩

/-- Claim C8: with the recording toggle off, startSession returns the empty
identifier and leaves the state (session map and persisted log) untouched,
and recordAction and endSession return the state unchanged without writing
and without reaching any throwing path (the error case of the model is
never produced). -/
theorem recording_disabled_noop (st : RecState) (instanceId : String)
    (cfg : StartConfig) (sid now : String) (a : ActionInput) (aid ts : String)
    (dur : Int) (endTs : String)
    (h : st.recordingEnabled = false) :
    startSession st instanceId cfg sid now = .ok ("", st) ∧
    recordAction st instanceId a aid ts dur = .ok st ∧
    endSession st instanceId endTs = .ok st := by
  refine ⟨?_, ?_, ?_⟩
  · simp [startSession, h]
  · simp [recordAction, h]
  · simp [endSession, h]

/-- Witness for claim C8 at a concrete disabled state. -/
theorem recording_disabled_noop_witness :
    startSession { recordingEnabled := false } "inst-1"
        { browserType := "chromium" } "s1" "t0" =
      .ok ("", { recordingEnabled := false }) ∧
    recordAction { recordingEnabled := false } "inst-1"
        { tool := "browser_navigate", parameters := [("url", .str "https://example.com")] }
        "a1" "t1" 0 = .ok { recordingEnabled := false } ∧
    endSession { recordingEnabled := false } "inst-1" "t2" =
      .ok { recordingEnabled := false } :=
  recording_disabled_noop { recordingEnabled := false } "inst-1"
    { browserType := "chromium" } "s1" "t0"
    { tool := "browser_navigate", parameters := [("url", .str "https://example.com")] }
    "a1" "t1" 0 "t2" rfl

/-- Claim C9: for every resolved session and every generation-options value,
the generated test source ends with the trivial liveness assertion that the
current page url is truthy, immediately followed by the closing brace of
the test; in particular every generated test contains at least one
assertion. -/
theorem generatePlaywrightTest_final_assertion (s : Session) (o : GenOptions) :
    ("  const url = page.url();\n  expect(url).toBeTruthy();\n\x7d);").data <:+
      (generatePlaywrightTest s o).data := by
  have htail : ("  const url = page.url();\n  expect(url).toBeTruthy();\n\x7d);").data <:+
      (joinLines ["  // Verify page loaded without errors",
        "  const url = page.url();", "  expect(url).toBeTruthy();", "\x7d);"]).data := by
    refine ⟨("  // Verify page loaded without errors\n").data, ?_⟩
    rfl
  have hform : genTestLines s o =
      (let testName := jsOrStr o.testName ("Test session " ++ s.id)
       let timeout := jsOrInt o.timeout 30000
       (["import \x7b test, expect \x7d from " ++ qc ++ "@playwright/test" ++ qc ++ ";",
         "",
         "test(" ++ qc ++ testName ++ qc ++ ", async (\x7b page \x7d) => \x7b",
         "  test.setTimeout(" ++ toString timeout ++ ");",
         ""] ++
        (match s.config with
         | some cfg =>
           match cfg.viewport with
           | some vp =>
             ["  // Set viewport",
              "  await page.setViewportSize(\x7b width: " ++ toString vp.width ++
                ", height: " ++ toString vp.height ++ " \x7d);",
              ""]
           | none => []
         | none => []) ++
        concatMap testActionBlock
          (s.actions.filter (fun a => !(a.tool == "browser_create_instance"))) ++
        (match o.expectedString with
         | some es =>
           if es == "" then []
           else
             ["  // Verify expected content",
              "  const content = await page.content();",
              "  expect(content).toContain(" ++ qc ++ escSingleQuotes es ++ qc ++ ");"]
         | none => []))) ++
      ["  // Verify page loaded without errors",
       "  const url = page.url();",
       "  expect(url).toBeTruthy();",
       "\x7d);"] := rfl
  rw [generatePlaywrightTest, hform]
  exact htail.trans (joinLines_suffix _ _ (by simp))

/-- Claim C10 counterexample: when the denylisted key occurs only inside the
object value of a parameter that is itself named screenshot, the stored
record does not contain that nested value at all; the whole value is
replaced by the screenshot placeholder string. -/
theorem sanitizeParameters_screenshot_param_replaced :
    List.lookup "screenshot"
        (sanitizeParameters [("screenshot", .obj [("password", .str "x")])]) =
      some (.str "[SCREENSHOT_DATA]") ∧
    JVal.str "[SCREENSHOT_DATA]" ≠ JVal.obj [("password", .str "x")] := by
  exact ⟨rfl, by simp⟩

/-- Claim C10 as amended: redaction inspects only top-level own keys, so any
parameter whose key is neither denylisted nor the screenshot key keeps its
value identical to the input, whatever sensitive keys occur nested inside
object or array values of that parameter. -/
theorem sanitizeParameters_nested_values_preserved (bag : List (String × JVal))
    (k : String) (v : JVal)
    (hsens : sensitiveFields.contains k = false)
    (hshot : (k == "screenshot") = false)
    (hv : List.lookup k bag = some v) :
    List.lookup k (sanitizeParameters bag) = some v := by
  rw [lookup_sanitizeParameters, hv, Option.map_some']
  unfold sanitizeEntry
  rw [hsens, hshot]
  rfl

/-- Witness for the amended claim C10: a nested password inside the value of
the credentials parameter is stored untouched. -/
theorem sanitizeParameters_nested_values_preserved_witness :
    List.lookup "credentials"
        (sanitizeParameters
          [("credentials", .obj [("password", .str "hunter2")]),
           ("url", .str "https://example.com")]) =
      some (.obj [("password", .str "hunter2")]) :=
  sanitizeParameters_nested_values_preserved _ _ _ rfl rfl rfl
